import Mathlib

/-
Verification of the raspomushi ingestion pipeline.

The repository has two near-duplicate ingestion variants:
  * app.py: `_do_check_new_songs` (background runner, insert-only "skip" duplicate
    policy, per-item commit, listing abort on any listing fetch failure),
    `check_new_songs` (trigger with single-flight guard),
    `_extract_song_ids_from_artist_page`, `_extract_title_and_lyrics`;
  * crawl_uta_net.py: `main` (standalone crawler, update-in-place duplicate policy,
    one commit at the end of the run, failed listing pages skipped),
    `extract_song_ids_from_artist_page`, `extract_title_and_lyrics`.

The embedding is shallow: HTML parsing (BeautifulSoup) is cut at the level of the
data the code reads from the soup (anchor hrefs, div attributes and text, the h2
text and the document title string), HTTP fetches are oracles supplied as inputs,
and the sqlite connection is a pair of row lists (the connection's in-transaction
view and the committed/durable view).  Timestamps (datetime.now().isoformat())
are abstracted to Nat; SQL string equality is Lean String equality.
-/

/-! ### Python string primitives used by the two modules -/

/-- Python whitespace (`str.isspace` / regex `\s` on `str`): 0x09-0x0D, 0x1C-0x20,
NEL, NBSP, and the Unicode space separators. -/
def pyIsSpace (c : Char) : Bool :=
  let v := c.val
  (0x09 ≤ v && v ≤ 0x0D) || (0x1C ≤ v && v ≤ 0x20) || v == 0x85 || v == 0xA0 ||
  v == 0x1680 || (0x2000 ≤ v && v ≤ 0x200A) || v == 0x2028 || v == 0x2029 ||
  v == 0x202F || v == 0x205F || v == 0x3000

/-- Python `str.strip()` on a character list. -/
def stripChars (cs : List Char) : List Char :=
  ((cs.dropWhile pyIsSpace).reverse.dropWhile pyIsSpace).reverse

/-- Python `str.strip()`. -/
def stripStr (s : String) : String :=
  String.mk (stripChars s.toList)

/-- Does `needle` occur as a contiguous subsequence of `hay`?  (Python `in`.) -/
def seqContains (needle : List Char) : List Char → Bool
  | [] => needle.isEmpty
  | c :: rest => needle.isPrefixOf (c :: rest) || seqContains needle rest

/-- Python `needle in hay` on strings. -/
def containsSub (hay needle : String) : Bool :=
  seqContains needle.toList hay.toList

/-- The characters before the first occurrence of `needle` (Python
`hay.split(needle)[0]` when `needle` occurs in `hay`). -/
def takeBeforeMarker (needle : List Char) : List Char → List Char
  | [] => []
  | c :: rest =>
    if needle.isPrefixOf (c :: rest) then [] else c :: takeBeforeMarker needle rest

/-- Worker for `collapseNewlineRuns`: `run` is the number of newlines already seen
in the current run. -/
def collapseNLAux : List Char → Nat → List Char
  | [], _ => []
  | c :: rest, run =>
    if c = '\n' then
      (if run < 2 then ['\n'] else []) ++ collapseNLAux rest (run + 1)
    else c :: collapseNLAux rest 0

/-- Python `re.sub(r"\n{3,}", "\n\n", s)`: every maximal run of at least three
newlines becomes exactly two. -/
def collapseNewlineRuns (s : String) : String :=
  String.mk (collapseNLAux s.toList 0)

/-! ### ListingParser

`_extract_song_ids_from_artist_page` (app.py:332-342) and
`extract_song_ids_from_artist_page` (crawl_uta_net.py:67-77) are identical:
for every anchor href, `re.match(r"/song/(\d+)/?", href)` takes the digit group;
membership in the accumulated list folds duplicates.  `re.match` anchors at the
start of the string only, so the href merely has to BEGIN with `/song/<digits>`;
whatever follows the digits is unconstrained.  (`\d` is modelled as the ASCII
digits; the site's hrefs are ASCII.) -/

/-- The digit group of `re.match(r"/song/(\d+)/?", href)`, if the match succeeds. -/
def songIdOfHref (href : String) : Option String :=
  let cs := href.toList
  if ("/song/".toList).isPrefixOf cs then
    let ds := (cs.drop 6).takeWhile Char.isDigit
    if ds.isEmpty then none else some (String.mk ds)
  else none

/-- `if sid not in ids: ids.append(sid)` — the dedup step shared by the listing
parser and the cross-page union in both `main`s. -/
def addIdStep (ids : List String) (sid : String) : List String :=
  if sid ∈ ids then ids else ids ++ [sid]

/-- Listing parser of both modules, at the level of the page's anchor hrefs. -/
def extract_song_ids_from_artist_page (hrefs : List String) : List String :=
  hrefs.foldl
    (fun ids href =>
      match songIdOfHref href with
      | some sid => addIdStep ids sid
      | none => ids)
    []

/-- Cross-page dedup of app.py:416-421 / crawl_uta_net.py:154-160 (the `seen` set
holds exactly the members of the accumulated list). -/
def dedupKeepFirst (l : List String) : List String :=
  l.foldl addIdStep []

/-- Modelled from the spec's words, for comparison with `songIdOfHref` (the
source): an href "matching the pattern /song/<digits>/ with optional trailing
slash" is EXACTLY of the form `/song/` ++ digits ++ (`""` or `"/"`). -/
def specSongIdFullMatch (href : String) : Option String :=
  let cs := href.toList
  if ("/song/".toList).isPrefixOf cs then
    let tail := cs.drop 6
    let ds := tail.takeWhile Char.isDigit
    let rest := tail.drop ds.length
    if !ds.isEmpty && (rest.isEmpty || rest == ['/']) then some (String.mk ds)
    else none
  else none

/-! ### DedupStore: the `lyrics` table and the sqlite connection -/

/-- One row of the `lyrics` table (schema of app.py's `init_db`; the three
trailing columns default to NULL/0/0 on insert and are never mentioned by the
crawler's statements). -/
structure Row where
  id : Nat
  title : String
  content : String
  created_at : Nat
  updated_at : Nat
  last_opened_at : Option Nat
  view_count : Nat
  saved_word_count : Nat
deriving DecidableEq, Repr

/-- A sqlite connection: `rows` is the connection's own (in-transaction) view,
`committed` the durable view that survives process death; `conn.commit()` makes
them agree.  `nextId` models the AUTOINCREMENT counter. -/
structure Conn where
  rows : List Row
  committed : List Row
  nextId : Nat
deriving DecidableEq, Repr

/-- `SELECT id FROM lyrics WHERE title = ?` then `fetchone()`. -/
def lookupByTitle (rows : List Row) (title : String) : Option Row :=
  rows.find? (fun r => r.title == title)

/-- `INSERT INTO lyrics (title, content, created_at, updated_at) VALUES (?,?,?,?)`
with both timestamps equal to `now` (app.py:458-462, crawl_uta_net.py:201-205). -/
def insertRow (c : Conn) (title content : String) (now : Nat) : Conn :=
  { c with
      rows := c.rows ++ [⟨c.nextId, title, content, now, now, none, 0, 0⟩],
      nextId := c.nextId + 1 }

/-- `UPDATE lyrics SET content = ?, updated_at = ? WHERE id = ?`
(crawl_uta_net.py:195-198). -/
def updateRow (c : Conn) (rid : Nat) (content : String) (now : Nat) : Conn :=
  { c with
      rows := c.rows.map (fun x =>
        if x.id = rid then { x with content := content, updated_at := now } else x) }

/-- `conn.commit()`. -/
def commit (c : Conn) : Conn :=
  { c with committed := c.rows }

/-- Every write performed on the connection has been committed. -/
def fullyCommitted (c : Conn) : Prop :=
  c.committed = c.rows

/-! ### The item phase of app.py's `_do_check_new_songs` (lines 435-469) -/

/-- Outcome of fetching and extracting one song page: the raised exception's
message, or the `(title, content)` pair `_extract_title_and_lyrics` returned. -/
inductive ItemResult where
  | fetchErr (msg : String)
  | ok (title content : String)
deriving DecidableEq, Repr

/-- Loop state of `_do_check_new_songs`' item phase.  `time` models the wall
clock: every iteration ends in `time.sleep(REQUEST_DELAY)`, so it advances on
every path; the database writes never read it. -/
structure AppState where
  conn : Conn
  inserted : Nat
  skipped : Nat
  errors : List (String × String)
  time : Nat
deriving DecidableEq, Repr

/-- One iteration of app.py:435-469: fetch/extract error → record and continue;
content gate (`not content or len(content) < 10`) → counted skip; duplicate
title → counted skip; otherwise insert and immediately commit. -/
def appProcessItem (t0 : Nat) (st : AppState) (sid : String) (res : ItemResult) :
    AppState :=
  match res with
  | .fetchErr e =>
    { st with errors := st.errors ++ [(sid, e)], time := st.time + 1 }
  | .ok title content =>
    if content = "" ∨ content.length < 10 then
      { st with skipped := st.skipped + 1, time := st.time + 1 }
    else
      match lookupByTitle st.conn.rows title with
      | some _ => { st with skipped := st.skipped + 1, time := st.time + 1 }
      | none =>
        { st with
            conn := commit (insertRow st.conn title content t0),
            inserted := st.inserted + 1,
            time := st.time + 1 }

/-- The item loop of `_do_check_new_songs` over a list of song ids; `fetch` is
the oracle giving each item page's fetch/extract outcome. -/
def appItemLoop (t0 : Nat) (fetch : String → ItemResult) (st0 : AppState)
    (ids : List String) : AppState :=
  ids.foldl (fun st sid => appProcessItem t0 st sid (fetch sid)) st0

/-! ### The listing phase and whole run of `_do_check_new_songs` -/

/-- Listing phase of app.py:402-413: pages are fetched in order; the first
failure makes the whole function return (`conn.close(); return`), modelled as
`none`.  Each page is given as `none` (fetch raised) or `some hrefs`. -/
def appListingPhase : List (Option (List String)) → Option (List String)
  | [] => some []
  | none :: _ => none
  | some hrefs :: rest =>
    match appListingPhase rest with
    | none => none
    | some ids => some (extract_song_ids_from_artist_page hrefs ++ ids)

inductive RunOutcome where
  | listingAbort
  | emptyAbort
  | completed
  | internalError
deriving DecidableEq, Repr

/-- Result of one background run: the connection, the running flag after the
`finally` block (app.py:476-479), the exit path taken, and the summary counts. -/
structure AppRunResult where
  conn : Conn
  running : Bool
  outcome : RunOutcome
  inserted : Nat
  skipped : Nat
  errors : List (String × String)
deriving DecidableEq, Repr

/-- `_do_check_new_songs` (app.py:390-479).  `fault = some k` injects an
exception escaping the item loop after `k` items were fully processed (caught by
the outer `except`, app.py:474); the `finally` block clears the running flag on
every exit path, which is why every branch below ends with `running := false`. -/
def appRun (conn0 : Conn) (t0 : Nat) (pages : List (Option (List String)))
    (fetch : String → ItemResult) (fault : Option Nat) : AppRunResult :=
  match appListingPhase pages with
  | none => ⟨conn0, false, .listingAbort, 0, 0, []⟩
  | some allIds =>
    let uniqueIds := dedupKeepFirst allIds
    if uniqueIds = [] then ⟨conn0, false, .emptyAbort, 0, 0, []⟩
    else
      match fault with
      | none =>
        let st := appItemLoop t0 fetch ⟨conn0, 0, 0, [], 0⟩ uniqueIds
        ⟨st.conn, false, .completed, st.inserted, st.skipped, st.errors⟩
      | some k =>
        let st := appItemLoop t0 fetch ⟨conn0, 0, 0, [], 0⟩ (uniqueIds.take k)
        ⟨st.conn, false, .internalError, st.inserted, st.skipped, st.errors⟩

/-! ### The trigger `check_new_songs` (app.py:487-505) -/

inductive TriggerResult where
  | accepted
  | alreadyRunning
deriving DecidableEq, Repr

/-- Process state shared between the trigger path and the worker: the
`check_new_songs._running` flag and the corpus connection. -/
structure Server where
  running : Bool
  conn : Conn
deriving DecidableEq, Repr

/-- The trigger: if the flag is set, reply 409 `AlreadyRunning` and touch
nothing; otherwise set the flag and start the background run. -/
def check_new_songs (s : Server) : TriggerResult × Server :=
  if s.running then (.alreadyRunning, s)
  else (.accepted, { s with running := true })

/-! ### crawl_uta_net.py's `main` (lines 132-215) -/

/-- Loop state of `main`'s item phase.  `skipLogs` counts the
`"Skip (no lyrics)"` log lines (the crawler has no skipped counter). -/
structure CrawlState where
  conn : Conn
  inserted : Nat
  updated : Nat
  skipLogs : Nat
  time : Nat
deriving DecidableEq, Repr

/-- One iteration of crawl_uta_net.py:174-211: fetch/extract error → log and
continue; content gate → log a skip; duplicate title → UPDATE content/updated_at
in place; new title → INSERT.  No commit happens inside the loop. -/
def crawlProcessItem (t0 : Nat) (st : CrawlState) (_sid : String)
    (res : ItemResult) : CrawlState :=
  match res with
  | .fetchErr _ => { st with time := st.time + 1 }
  | .ok title content =>
    if content = "" ∨ content.length < 10 then
      { st with skipLogs := st.skipLogs + 1, time := st.time + 1 }
    else
      match lookupByTitle st.conn.rows title with
      | some row =>
        { st with
            conn := updateRow st.conn row.id content t0,
            updated := st.updated + 1,
            time := st.time + 1 }
      | none =>
        { st with
            conn := insertRow st.conn title content t0,
            inserted := st.inserted + 1,
            time := st.time + 1 }

/-- The item loop of `main`. -/
def crawlItemLoop (t0 : Nat) (fetch : String → ItemResult) (st0 : CrawlState)
    (ids : List String) : CrawlState :=
  ids.foldl (fun st sid => crawlProcessItem t0 st sid (fetch sid)) st0

/-- Listing phase of crawl_uta_net.py:141-152: a failed page fetch is logged and
SKIPPED (`continue`), the run goes on with the ids of the pages that succeeded. -/
def crawlListingPhase (pages : List (Option (List String))) : List String :=
  pages.foldl
    (fun acc pg =>
      match pg with
      | none => acc
      | some hrefs => acc ++ extract_song_ids_from_artist_page hrefs)
    []

/-- Result of one standalone crawl: `aborted` is the empty-ID early return of
crawl_uta_net.py:167-170. -/
structure CrawlRunResult where
  conn : Conn
  aborted : Bool
  inserted : Nat
  updated : Nat
  skipLogs : Nat
deriving DecidableEq, Repr

/-- `main` (crawl_uta_net.py:132-215): listing phase with failed pages skipped,
cross-page dedup, optional `--limit` truncation (`limit = 0` means all), the
empty-ID abort, the item loop, and ONE `conn.commit()` after the loop ends. -/
def crawlRun (conn0 : Conn) (t0 : Nat) (pages : List (Option (List String)))
    (fetch : String → ItemResult) (limit : Nat) : CrawlRunResult :=
  let allIds := crawlListingPhase pages
  let uniqueIds0 := dedupKeepFirst allIds
  let uniqueIds := if limit > 0 then uniqueIds0.take limit else uniqueIds0
  if uniqueIds = [] then ⟨conn0, true, 0, 0, 0⟩
  else
    let st := crawlItemLoop t0 fetch ⟨conn0, 0, 0, 0, 0⟩ uniqueIds
    ⟨commit st.conn, false, st.inserted, st.updated, st.skipLogs⟩

/-! ### ContentExtractor: `_extract_title_and_lyrics` (app.py:345-387) and
`extract_title_and_lyrics` (crawl_uta_net.py:80-129)

The two functions are identical except for the condition of the tier-3 fallback
scan: app.py:372 parenthesizes
  `len(text) > 100 and ("歌詞" in text or "作詞" in div.get_text())`
while crawl_uta_net.py:111 does not:
  `len(text) > 100 and "歌詞" in text or "作詞" in div.get_text()`
which Python parses as `(len(text) > 100 and "歌詞" in text) or ("作詞" in ...)`.

A `<div>` element is cut at the level of the attributes and text projections the
code reads from it. -/

/-- A div element of the song page.  `flatText` is
`get_text(separator="\n", strip=True)`, `rawText` is `get_text()`, and
`cleanFlatText` is `get_text(separator="\n", strip=True)` after the
script/style descendants were decomposed (app.py:378-380). -/
structure DivEl where
  idAttr : Option String
  classes : List String
  flatText : String
  rawText : String
  cleanFlatText : String
deriving DecidableEq, Repr

/-- `div.get("id") in ("header", "footer", "nav", "menu")`. -/
def isChromeId (o : Option String) : Bool :=
  o == some "header" || o == some "footer" || o == some "nav" || o == some "menu"

/-- Tier 1: `soup.find("div", id="kashi_area") or soup.find("div", id="kashi")`. -/
def findDivByKnownId (divs : List DivEl) : Option DivEl :=
  match divs.find? (fun d => d.idAttr == some "kashi_area") with
  | some d => some d
  | none => divs.find? (fun d => d.idAttr == some "kashi")

/-- The class filter `lambda x: x and c in (x or "")`; BeautifulSoup applies it
to each class string of the (multi-valued) class attribute. -/
def classHit (c : String) (d : DivEl) : Bool :=
  d.classes.any (fun cls => containsSub cls c)

/-- Tier 2: `for c in ("kashi_area", "kashi", "song_table"): soup.find("div",
class_=...)`, stopping at the first vocabulary word that hits. -/
def findDivByClassVocab (divs : List DivEl) : List String → Option DivEl
  | [] => none
  | c :: rest =>
    match divs.find? (classHit c) with
    | some d => some d
    | none => findDivByClassVocab divs rest

/-- Tier 3 as written in app.py:367-374 (parenthesized condition): skip the
chrome ids, then require BOTH a flattened text longer than 100 characters AND a
lyric indicator. -/
def fallbackScanApp (divs : List DivEl) : Option DivEl :=
  divs.find? (fun d =>
    !isChromeId d.idAttr &&
      (decide (d.flatText.length > 100) &&
        (containsSub d.flatText "歌詞" || containsSub d.rawText "作詞")))

/-- Tier 3 as written in crawl_uta_net.py:105-114 (unparenthesized condition):
`and` binds tighter than `or`, so a div whose raw text mentions 作詞 is selected
regardless of its length. -/
def fallbackScanCrawl (divs : List DivEl) : Option DivEl :=
  divs.find? (fun d =>
    !isChromeId d.idAttr &&
      ((decide (d.flatText.length > 100) && containsSub d.flatText "歌詞") ||
        containsSub d.rawText "作詞"))

/-- The three-tier container selection of app.py. -/
def findLyricsDivApp (divs : List DivEl) : Option DivEl :=
  match findDivByKnownId divs with
  | some d => some d
  | none =>
    match findDivByClassVocab divs ["kashi_area", "kashi", "song_table"] with
    | some d => some d
    | none => fallbackScanApp divs

/-- The three-tier container selection of crawl_uta_net.py. -/
def findLyricsDivCrawl (divs : List DivEl) : Option DivEl :=
  match findDivByKnownId divs with
  | some d => some d
  | none =>
    match findDivByClassVocab divs ["kashi_area", "kashi", "song_table"] with
    | some d => some d
    | none => fallbackScanCrawl divs

/-- A song page, at the level the extractor reads it: the stripped text of the
first `<h2>` (if one exists), the document title string (`soup.title.string`,
with a missing `<title>` element and a None string both folded into `none`,
since `or ""` makes them behave alike), and the div elements in document order. -/
structure Page where
  h2Text : Option String
  titleStr : Option String
  divs : List DivEl
deriving DecidableEq, Repr

/-- `re.sub(r"\s*歌詞\s*-\s*歌ネット\s*$", "", t)`: peel the suffix
whitespace* 歌詞 whitespace* - whitespace* 歌ネット whitespace* off the end, if
it is there. -/
def stripKashiSuffix (t : String) : String :=
  let r := t.toList.reverse
  let r1 := r.dropWhile pyIsSpace
  if ("歌ネット".toList.reverse).isPrefixOf r1 then
    let r2 := (r1.drop 4).dropWhile pyIsSpace
    match r2 with
    | '-' :: r2' =>
      let r3 := r2'.dropWhile pyIsSpace
      if ("歌詞".toList.reverse).isPrefixOf r3 then
        String.mk ((r3.drop 2).dropWhile pyIsSpace).reverse
      else t
    | _ => t
  else t

/-- `parts = t.split(None, 1); title = parts[1] if len(parts) > 1 else parts[0]`:
drop the leading whitespace-delimited token (the artist name) if a second part
exists. -/
def splitDropArtist (t : String) : String :=
  let cs := t.toList.dropWhile pyIsSpace
  let tok := cs.takeWhile (fun c => !pyIsSpace c)
  let rest := (cs.dropWhile (fun c => !pyIsSpace c)).dropWhile pyIsSpace
  if rest.isEmpty then String.mk tok else String.mk rest

/-- The title heuristic shared by both extractors (app.py:348-359,
crawl_uta_net.py:83-96): first h2 text, else the document title with the
"歌詞 - 歌ネット" suffix stripped and the leading token dropped, else
`"unknown"`. -/
def extractTitle (p : Page) : String :=
  let title :=
    match p.h2Text with
    | some s => stripStr s
    | none => ""
  let title :=
    if title = "" then
      match p.titleStr with
      | some raw =>
        let t := stripStr (stripKashiSuffix raw)
        if t = "" then "" else splitDropArtist t
      | none => ""
    else title
  if title = "" then "unknown" else title

/-- Boilerplate markers of app.py:381-384 / crawl_uta_net.py:122-126. -/
def marker1 : String := "この歌詞をマイ歌ネットに登録"

def marker2 : String := "この曲のフレーズを投稿"

/-- `if m in content: content = content.split(m)[0].strip()`. -/
def cutAtMarker (m content : String) : String :=
  if containsSub content m then
    stripStr (String.mk (takeBeforeMarker m.toList content.toList))
  else content

/-- The content post-processing once a container is selected: truncate at either
boilerplate marker, collapse newline runs, strip. -/
def postprocessContent (raw : String) : String :=
  stripStr (collapseNewlineRuns (cutAtMarker marker2 (cutAtMarker marker1 raw)))

/-- The content produced from the selected container (empty when none). -/
def contentOf (container : Option DivEl) : String :=
  match container with
  | some d => postprocessContent d.cleanFlatText
  | none => ""

/-- `_extract_title_and_lyrics` (app.py:345-387). -/
def extract_title_and_lyrics (p : Page) : String × String :=
  (extractTitle p, contentOf (findLyricsDivApp p.divs))

/-- `extract_title_and_lyrics` (crawl_uta_net.py:80-129); same title logic,
crawl's tier-3 condition. -/
def crawl_extract_title_and_lyrics (p : Page) : String × String :=
  (extractTitle p, contentOf (findLyricsDivCrawl p.divs))

/-! ### Concrete sample values used by witnesses and counterexamples -/

/-- An existing corpus row with the spec's example title and nonzero counters. -/
def rowAme : Row := ⟨1, "雨と僕", "ふるさとの雨ふたたび", 5, 5, some 7, 3, 2⟩

/-- A div whose flattened text is 2 characters yet whose raw text mentions 作詞. -/
def shortSakushiDiv : DivEl := ⟨none, [], "作詞", "作詞:誰か", "作詞"⟩

/-- 103 characters containing the indicator 歌詞. -/
def longLyricText : String := String.mk (List.replicate 101 'a') ++ "歌詞"

/-- A div that genuinely satisfies both tier-3 conditions. -/
def longLyricDiv : DivEl := ⟨none, [], longLyricText, "", "国境の長いトンネルを抜けると雪国であった"⟩

/-- A chrome div (`id="header"`) that satisfies both tier-3 conditions. -/
def chromeHeaderDiv : DivEl := ⟨some "header", [], longLyricText, "作詞", "x"⟩

/-! ### Helper lemmas on the two item loops -/

theorem appItemLoop_preserves (t0 : Nat) (fetch : String → ItemResult)
    (P : AppState → Prop)
    (h : ∀ st sid res, P st → P (appProcessItem t0 st sid res)) :
    ∀ (ids : List String) (st0 : AppState), P st0 →
      P (appItemLoop t0 fetch st0 ids) := by
  intro ids
  induction ids with
  | nil => intro st0 h0; exact h0
  | cons sid rest ih =>
    intro st0 h0
    exact ih _ (h st0 sid (fetch sid) h0)

theorem crawlItemLoop_preserves (t0 : Nat) (fetch : String → ItemResult)
    (P : CrawlState → Prop)
    (h : ∀ st sid res, P st → P (crawlProcessItem t0 st sid res)) :
    ∀ (ids : List String) (st0 : CrawlState), P st0 →
      P (crawlItemLoop t0 fetch st0 ids) := by
  intro ids
  induction ids with
  | nil => intro st0 h0; exact h0
  | cons sid rest ih =>
    intro st0 h0
    exact ih _ (h st0 sid (fetch sid) h0)

theorem appProcessItem_fullyCommitted (t0 : Nat) (st : AppState) (sid : String)
    (res : ItemResult) (h : fullyCommitted st.conn) :
    fullyCommitted (appProcessItem t0 st sid res).conn := by
  cases res with
  | fetchErr e => exact h
  | ok title content =>
    simp only [appProcessItem]
    split
    · exact h
    · split
      · exact h
      · simp [fullyCommitted, commit]

/-- Claim C1 (amended): in app.py's runner the per-item commit invariant holds —
after any prefix of the item sequence has been processed, every corpus write
performed for that prefix is already committed; the standalone crawler instead
leaves every write uncommitted until the single `conn.commit()` after the loop,
so only the final state of a crawl run is fully committed. -/
theorem per_item_commit_policy :
    (∀ (t0 : Nat) (fetch : String → ItemResult) (st0 : AppState)
       (ids p rest : List String), ids = p ++ rest → fullyCommitted st0.conn →
       fullyCommitted (appItemLoop t0 fetch st0 p).conn) ∧
    (∀ (conn0 : Conn) (t0 : Nat) (pages : List (Option (List String)))
       (fetch : String → ItemResult) (limit : Nat), fullyCommitted conn0 →
       fullyCommitted (crawlRun conn0 t0 pages fetch limit).conn) := by
  constructor
  · intro t0 fetch st0 ids p rest _ h0
    exact appItemLoop_preserves t0 fetch (fun st => fullyCommitted st.conn)
      (fun st sid res hst => appProcessItem_fullyCommitted t0 st sid res hst) p st0 h0
  · intro conn0 t0 pages fetch limit h0
    simp only [crawlRun]
    split <;> split <;> first | exact h0 | simp [fullyCommitted, commit]

theorem per_item_commit_policy_witness :
    fullyCommitted (appItemLoop 0 (fun _ => .ok "A" "abcdefghij")
        ⟨⟨[], [], 1⟩, 0, 0, [], 0⟩ ["10"]).conn ∧
    fullyCommitted (crawlRun ⟨[], [], 1⟩ 0 [some ["/song/10/"]]
        (fun _ => .ok "A" "abcdefghij") 0).conn :=
  ⟨per_item_commit_policy.1 0 (fun _ => .ok "A" "abcdefghij")
      ⟨⟨[], [], 1⟩, 0, 0, [], 0⟩ ["10"] ["10"] [] rfl rfl,
   per_item_commit_policy.2 ⟨[], [], 1⟩ 0 [some ["/song/10/"]]
      (fun _ => .ok "A" "abcdefghij") 0 rfl⟩

/-- Claim C1 counterexample: in crawl_uta_net.py's item loop, processing an item
that results in an insert leaves the write uncommitted when the runner moves to
the next item — the durable view is still empty while the connection's view
holds the new row. -/
theorem crawl_deferred_commit_counterexample :
    (crawlProcessItem 0 ⟨⟨[], [], 1⟩, 0, 0, 0, 0⟩ "10"
        (.ok "A" "abcdefghij")).inserted = 1 ∧
    (crawlProcessItem 0 ⟨⟨[], [], 1⟩, 0, 0, 0, 0⟩ "10"
        (.ok "A" "abcdefghij")).conn.committed ≠
      (crawlProcessItem 0 ⟨⟨[], [], 1⟩, 0, 0, 0, 0⟩ "10"
        (.ok "A" "abcdefghij")).conn.rows := by
  decide

/-- Claim C3: a trigger arriving while the running flag is set is rejected with
`AlreadyRunning`, and the whole server state — flag and corpus connection — is
returned exactly unchanged (no fetch, no write happens on that path). -/
theorem single_flight_reject (s : Server) (h : s.running = true) :
    check_new_songs s = (.alreadyRunning, s) := by
  simp [check_new_songs, h]

theorem single_flight_reject_witness :
    check_new_songs ⟨true, ⟨[], [], 1⟩⟩ = (.alreadyRunning, ⟨true, ⟨[], [], 1⟩⟩) :=
  single_flight_reject ⟨true, ⟨[], [], 1⟩⟩ rfl

/-- Claim C4: on every exit path of `_do_check_new_songs` — listing abort, empty
abort, normal completion, or an injected internal error escaping the item loop —
the running flag ends up false, and a subsequent trigger is accepted. -/
theorem running_flag_always_reset (conn0 : Conn) (t0 : Nat)
    (pages : List (Option (List String))) (fetch : String → ItemResult)
    (fault : Option Nat) (c1 : Conn) :
    (appRun conn0 t0 pages fetch fault).running = false ∧
    (check_new_songs ⟨(appRun conn0 t0 pages fetch fault).running, c1⟩).1 =
      .accepted := by
  have h : (appRun conn0 t0 pages fetch fault).running = false := by
    simp only [appRun]
    split
    · rfl
    · split
      · rfl
      · cases fault <;> rfl
  refine ⟨h, ?_⟩
  rw [h]
  rfl

theorem appListingPhase_none_iff (pages : List (Option (List String))) :
    appListingPhase pages = none ↔ none ∈ pages := by
  induction pages with
  | nil => simp [appListingPhase]
  | cons pg rest ih =>
    cases pg with
    | none => simp [appListingPhase]
    | some hrefs =>
      simp only [appListingPhase, List.mem_cons]
      constructor
      · intro h
        cases hr : appListingPhase rest with
        | none => exact Or.inr (ih.mp hr)
        | some ids => rw [hr] at h; simp at h
      · intro h
        rcases h with h | h
        · exact absurd h (by simp)
        · rw [ih.mpr h]

theorem crawlListingPhase_skips_failed_pages :
    ∀ (pages : List (Option (List String))) (acc : List String),
      pages.foldl
        (fun acc pg =>
          match pg with
          | none => acc
          | some hrefs => acc ++ extract_song_ids_from_artist_page hrefs) acc =
      (pages.filter Option.isSome).foldl
        (fun acc pg =>
          match pg with
          | none => acc
          | some hrefs => acc ++ extract_song_ids_from_artist_page hrefs) acc := by
  intro pages
  induction pages with
  | nil => intro acc; rfl
  | cons pg rest ih =>
    intro acc
    cases pg with
    | none => simpa [List.filter_cons] using ih acc
    | some hrefs => simpa [List.filter_cons] using ih (acc ++ extract_song_ids_from_artist_page hrefs)

/-- Claim C2 (amended): in app.py's runner the listing phase is all-or-nothing —
a listing fetch failure (the listing phase returning `none` is exactly a failed
page being present) or an empty deduplicated ID union aborts the run with zero
corpus mutation and the running flag reset, and no partial ID set is processed.
The standalone crawler instead SKIPS a failed listing page (its ID union equals
that of the successful pages alone) and aborts only when the resulting ID set is
empty, leaving the corpus untouched in that case. -/
theorem listing_abort_semantics :
    (∀ pages : List (Option (List String)),
       appListingPhase pages = none ↔ none ∈ pages) ∧
    (∀ (conn0 : Conn) (t0 : Nat) (pages : List (Option (List String)))
       (fetch : String → ItemResult) (fault : Option Nat),
       appListingPhase pages = none →
       appRun conn0 t0 pages fetch fault = ⟨conn0, false, .listingAbort, 0, 0, []⟩) ∧
    (∀ (conn0 : Conn) (t0 : Nat) (pages : List (Option (List String)))
       (fetch : String → ItemResult) (fault : Option Nat) (ids : List String),
       appListingPhase pages = some ids → dedupKeepFirst ids = [] →
       appRun conn0 t0 pages fetch fault = ⟨conn0, false, .emptyAbort, 0, 0, []⟩) ∧
    (∀ pages : List (Option (List String)),
       crawlListingPhase pages = crawlListingPhase (pages.filter Option.isSome)) ∧
    (∀ (conn0 : Conn) (t0 : Nat) (pages : List (Option (List String)))
       (fetch : String → ItemResult) (limit : Nat),
       dedupKeepFirst (crawlListingPhase pages) = [] →
       crawlRun conn0 t0 pages fetch limit = ⟨conn0, true, 0, 0, 0⟩) := by
  refine ⟨appListingPhase_none_iff, ?_, ?_, ?_, ?_⟩
  · intro conn0 t0 pages fetch fault h
    simp only [appRun]
    rw [h]
  · intro conn0 t0 pages fetch fault ids h hd
    simp only [appRun]
    rw [h]
    simp [hd]
  · intro pages
    exact crawlListingPhase_skips_failed_pages pages []
  · intro conn0 t0 pages fetch limit hd
    simp [crawlRun, hd, List.take_nil]

/-- Claim C2 counterexample: a crawl run whose first listing page fetch fails
still proceeds with the partial ID set of the second page and inserts a row —
the corpus IS mutated despite a listing fetch failure. -/
theorem crawl_partial_listing_counterexample :
    (crawlRun ⟨[], [], 1⟩ 0 [none, some ["/song/10/"]]
        (fun _ => .ok "A" "abcdefghij") 0).conn.rows =
      [⟨1, "A", "abcdefghij", 0, 0, none, 0, 0⟩] ∧
    (crawlRun ⟨[], [], 1⟩ 0 [none, some ["/song/10/"]]
        (fun _ => .ok "A" "abcdefghij") 0).inserted = 1 ∧
    (crawlRun ⟨[], [], 1⟩ 0 [none, some ["/song/10/"]]
        (fun _ => .ok "A" "abcdefghij") 0).aborted = false := by
  decide

theorem listing_abort_semantics_witness :
    appRun ⟨[], [], 1⟩ 0 [none, some ["/song/10/"]]
        (fun _ => .ok "A" "abcdefghij") none =
      ⟨⟨[], [], 1⟩, false, .listingAbort, 0, 0, []⟩ ∧
    appRun ⟨[], [], 1⟩ 0 [some []] (fun _ => .ok "A" "abcdefghij") none =
      ⟨⟨[], [], 1⟩, false, .emptyAbort, 0, 0, []⟩ ∧
    crawlRun ⟨[], [], 1⟩ 0 [some []] (fun _ => .ok "A" "abcdefghij") 0 =
      ⟨⟨[], [], 1⟩, true, 0, 0, 0⟩ :=
  ⟨listing_abort_semantics.2.1 ⟨[], [], 1⟩ 0 [none, some ["/song/10/"]]
      (fun _ => .ok "A" "abcdefghij") none rfl,
   listing_abort_semantics.2.2.1 ⟨[], [], 1⟩ 0 [some []]
      (fun _ => .ok "A" "abcdefghij") none [] rfl rfl,
   listing_abort_semantics.2.2.2.2 ⟨[], [], 1⟩ 0 [some []]
      (fun _ => .ok "A" "abcdefghij") 0 rfl⟩

/-! ### Characterizing the rows a run can produce -/

theorem appProcessItem_rows (t0 : Nat) (st : AppState) (sid : String)
    (res : ItemResult) (r : Row)
    (hr : r ∈ (appProcessItem t0 st sid res).conn.rows) :
    r ∈ st.conn.rows ∨
      (r.content ≠ "" ∧ 10 ≤ r.content.length ∧
        r.created_at = t0 ∧ r.updated_at = t0) := by
  cases res with
  | fetchErr e => exact Or.inl hr
  | ok title content =>
    by_cases hg : content = "" ∨ content.length < 10
    · left
      simpa [appProcessItem, hg] using hr
    · cases hl : lookupByTitle st.conn.rows title with
      | some row =>
        left
        simpa [appProcessItem, hg, hl] using hr
      | none =>
        have hr' : r ∈ st.conn.rows ++
            [⟨st.conn.nextId, title, content, t0, t0, none, 0, 0⟩] := by
          simpa [appProcessItem, hg, hl, commit, insertRow] using hr
        rcases List.mem_append.mp hr' with h | h
        · exact Or.inl h
        · right
          have hre : r = ⟨st.conn.nextId, title, content, t0, t0, none, 0, 0⟩ := by
            simpa using h
          subst hre
          push_neg at hg
          exact ⟨hg.1, hg.2, rfl, rfl⟩

theorem crawlProcessItem_rows (t0 : Nat) (st : CrawlState) (sid : String)
    (res : ItemResult) (r : Row)
    (hr : r ∈ (crawlProcessItem t0 st sid res).conn.rows) :
    r ∈ st.conn.rows ∨
      (r.content ≠ "" ∧ 10 ≤ r.content.length ∧ r.updated_at = t0) := by
  cases res with
  | fetchErr e => exact Or.inl hr
  | ok title content =>
    by_cases hg : content = "" ∨ content.length < 10
    · left
      simpa [crawlProcessItem, hg] using hr
    · cases hl : lookupByTitle st.conn.rows title with
      | some row =>
        have hr' : r ∈ st.conn.rows.map (fun x =>
            if x.id = row.id then { x with content := content, updated_at := t0 }
            else x) := by
          simpa [crawlProcessItem, hg, hl, updateRow] using hr
        rcases List.mem_map.mp hr' with ⟨x, hx, hfx⟩
        by_cases hid : x.id = row.id
        · rw [if_pos hid] at hfx
          subst hfx
          right
          push_neg at hg
          exact ⟨hg.1, hg.2, rfl⟩
        · rw [if_neg hid] at hfx
          subst hfx
          exact Or.inl hx
      | none =>
        have hr' : r ∈ st.conn.rows ++
            [⟨st.conn.nextId, title, content, t0, t0, none, 0, 0⟩] := by
          simpa [crawlProcessItem, hg, hl, insertRow] using hr
        rcases List.mem_append.mp hr' with h | h
        · exact Or.inl h
        · right
          have hre : r = ⟨st.conn.nextId, title, content, t0, t0, none, 0, 0⟩ := by
            simpa using h
          subst hre
          push_neg at hg
          exact ⟨hg.1, hg.2, rfl⟩

theorem crawlProcessItem_id_stamps (t0 : Nat) (ids0 : List Nat) (st : CrawlState)
    (sid : String) (res : ItemResult)
    (hP : ∀ x ∈ st.conn.rows, x.id ∉ ids0 →
      x.created_at = t0 ∧ x.updated_at = t0) :
    ∀ x ∈ (crawlProcessItem t0 st sid res).conn.rows, x.id ∉ ids0 →
      x.created_at = t0 ∧ x.updated_at = t0 := by
  intro x hx hxid
  cases res with
  | fetchErr e => exact hP x hx hxid
  | ok title content =>
    by_cases hg : content = "" ∨ content.length < 10
    · exact hP x (by simpa [crawlProcessItem, hg] using hx) hxid
    · cases hl : lookupByTitle st.conn.rows title with
      | some row =>
        have hx' : x ∈ st.conn.rows.map (fun y =>
            if y.id = row.id then { y with content := content, updated_at := t0 }
            else y) := by
          simpa [crawlProcessItem, hg, hl, updateRow] using hx
        rcases List.mem_map.mp hx' with ⟨y, hy, hfy⟩
        by_cases hid : y.id = row.id
        · rw [if_pos hid] at hfy
          subst hfy
          have := hP y hy hxid
          exact ⟨this.1, rfl⟩
        · rw [if_neg hid] at hfy
          subst hfy
          exact hP y hy hxid
      | none =>
        have hx' : x ∈ st.conn.rows ++
            [⟨st.conn.nextId, title, content, t0, t0, none, 0, 0⟩] := by
          simpa [crawlProcessItem, hg, hl, insertRow] using hx
        rcases List.mem_append.mp hx' with h | h
        · exact hP x h hxid
        · have hre : x = ⟨st.conn.nextId, title, content, t0, t0, none, 0, 0⟩ := by
            simpa using h
          subst hre
          exact ⟨rfl, rfl⟩

theorem appRun_rows_mem (conn0 : Conn) (t0 : Nat)
    (pages : List (Option (List String))) (fetch : String → ItemResult)
    (fault : Option Nat) (r : Row)
    (hr : r ∈ (appRun conn0 t0 pages fetch fault).conn.rows) :
    r ∈ conn0.rows ∨
      (r.content ≠ "" ∧ 10 ≤ r.content.length ∧
        r.created_at = t0 ∧ r.updated_at = t0) := by
  have hloop : ∀ ids : List String,
      ∀ x ∈ (appItemLoop t0 fetch ⟨conn0, 0, 0, [], 0⟩ ids).conn.rows,
        x ∈ conn0.rows ∨ (x.content ≠ "" ∧ 10 ≤ x.content.length ∧
          x.created_at = t0 ∧ x.updated_at = t0) := by
    intro ids
    refine appItemLoop_preserves t0 fetch
      (fun st => ∀ x ∈ st.conn.rows, x ∈ conn0.rows ∨
        (x.content ≠ "" ∧ 10 ≤ x.content.length ∧
          x.created_at = t0 ∧ x.updated_at = t0))
      ?_ ids ⟨conn0, 0, 0, [], 0⟩ ?_
    · intro st sid res hP x hx
      rcases appProcessItem_rows t0 st sid res x hx with h | h
      · exact hP x h
      · exact Or.inr h
    · intro x hx
      exact Or.inl hx
  simp only [appRun] at hr
  split at hr
  · exact Or.inl hr
  · split at hr
    · exact Or.inl hr
    · split at hr
      · exact hloop _ r hr
      · exact hloop _ r hr

theorem crawlRun_rows_mem (conn0 : Conn) (t0 : Nat)
    (pages : List (Option (List String))) (fetch : String → ItemResult)
    (limit : Nat) (r : Row)
    (hr : r ∈ (crawlRun conn0 t0 pages fetch limit).conn.rows) :
    r ∈ conn0.rows ∨
      (r.content ≠ "" ∧ 10 ≤ r.content.length ∧ r.updated_at = t0) := by
  have hloop : ∀ ids : List String,
      ∀ x ∈ (crawlItemLoop t0 fetch ⟨conn0, 0, 0, 0, 0⟩ ids).conn.rows,
        x ∈ conn0.rows ∨
          (x.content ≠ "" ∧ 10 ≤ x.content.length ∧ x.updated_at = t0) := by
    intro ids
    refine crawlItemLoop_preserves t0 fetch
      (fun st => ∀ x ∈ st.conn.rows, x ∈ conn0.rows ∨
        (x.content ≠ "" ∧ 10 ≤ x.content.length ∧ x.updated_at = t0))
      ?_ ids ⟨conn0, 0, 0, 0, 0⟩ ?_
    · intro st sid res hP x hx
      rcases crawlProcessItem_rows t0 st sid res x hx with h | h
      · exact hP x h
      · exact Or.inr h
    · intro x hx
      exact Or.inl hx
  simp only [crawlRun] at hr
  split at hr <;> split at hr
  · exact Or.inl hr
  · exact hloop _ r hr
  · exact Or.inl hr
  · exact hloop _ r hr

theorem crawlRun_new_id_stamps (conn0 : Conn) (t0 : Nat)
    (pages : List (Option (List String))) (fetch : String → ItemResult)
    (limit : Nat) (r : Row)
    (hr : r ∈ (crawlRun conn0 t0 pages fetch limit).conn.rows)
    (hid : r.id ∉ conn0.rows.map Row.id) :
    r.created_at = t0 ∧ r.updated_at = t0 := by
  have hloop : ∀ ids : List String,
      ∀ x ∈ (crawlItemLoop t0 fetch ⟨conn0, 0, 0, 0, 0⟩ ids).conn.rows,
        x.id ∉ conn0.rows.map Row.id →
          x.created_at = t0 ∧ x.updated_at = t0 := by
    intro ids
    refine crawlItemLoop_preserves t0 fetch
      (fun st => ∀ x ∈ st.conn.rows, x.id ∉ conn0.rows.map Row.id →
        x.created_at = t0 ∧ x.updated_at = t0)
      ?_ ids ⟨conn0, 0, 0, 0, 0⟩ ?_
    · intro st sid res hP
      exact crawlProcessItem_id_stamps t0 (conn0.rows.map Row.id) st sid res hP
    · intro x hx hxid
      exact absurd (List.mem_map_of_mem Row.id hx) hxid
  simp only [crawlRun] at hr
  split at hr <;> split at hr
  · exact absurd (List.mem_map_of_mem Row.id hr) hid
  · exact hloop _ r hr hid
  · exact absurd (List.mem_map_of_mem Row.id hr) hid
  · exact hloop _ r hr hid

/-- Claim C5: a record whose title exactly equals the title of an existing row
(and which passes the content gate) inserts no new row.  Under app.py's
skip-policy the whole loop state except the skip counter and the clock — in
particular the connection and every existing row — is unchanged.  Under
crawl_uta_net.py's update-policy the row count is preserved, exactly the found
row's content and updated_at are overwritten, and every row keeps its id, title,
created_at, last_opened_at, view_count and saved_word_count. -/
theorem duplicate_title_policies :
    (∀ (t0 : Nat) (st : AppState) (sid title content : String) (r : Row),
       lookupByTitle st.conn.rows title = some r →
       content ≠ "" → 10 ≤ content.length →
       appProcessItem t0 st sid (.ok title content) =
         { st with skipped := st.skipped + 1, time := st.time + 1 }) ∧
    (∀ (t0 : Nat) (st : CrawlState) (sid title content : String) (r : Row),
       lookupByTitle st.conn.rows title = some r →
       content ≠ "" → 10 ≤ content.length →
       ((crawlProcessItem t0 st sid (.ok title content)).conn.rows =
          st.conn.rows.map (fun x =>
            if x.id = r.id then { x with content := content, updated_at := t0 }
            else x) ∧
        (crawlProcessItem t0 st sid (.ok title content)).conn.rows.length =
          st.conn.rows.length ∧
        (crawlProcessItem t0 st sid (.ok title content)).inserted = st.inserted ∧
        (crawlProcessItem t0 st sid (.ok title content)).updated = st.updated + 1 ∧
        ∀ x' ∈ (crawlProcessItem t0 st sid (.ok title content)).conn.rows,
          ∃ x ∈ st.conn.rows,
            x'.id = x.id ∧ x'.title = x.title ∧ x'.created_at = x.created_at ∧
            x'.last_opened_at = x.last_opened_at ∧
            x'.view_count = x.view_count ∧
            x'.saved_word_count = x.saved_word_count ∧
            ((x'.content = x.content ∧ x'.updated_at = x.updated_at) ∨
             (x.id = r.id ∧ x'.content = content ∧ x'.updated_at = t0)))) := by
  have gate : ∀ content : String, content ≠ "" → 10 ≤ content.length →
      ¬(content = "" ∨ content.length < 10) := by
    intro content h1 h2 h
    rcases h with h | h
    · exact h1 h
    · omega
  constructor
  · intro t0 st sid title content r hl h1 h2
    simp only [appProcessItem]
    rw [if_neg (gate content h1 h2), hl]
  · intro t0 st sid title content r hl h1 h2
    have hstep : crawlProcessItem t0 st sid (.ok title content) =
        { st with
            conn := updateRow st.conn r.id content t0,
            updated := st.updated + 1,
            time := st.time + 1 } := by
      simp only [crawlProcessItem]
      rw [if_neg (gate content h1 h2), hl]
    rw [hstep]
    refine ⟨rfl, by simp [updateRow], rfl, rfl, ?_⟩
    intro x' hx'
    have hx'' : x' ∈ st.conn.rows.map (fun x =>
        if x.id = r.id then { x with content := content, updated_at := t0 }
        else x) := hx'
    rcases List.mem_map.mp hx'' with ⟨x, hx, hfx⟩
    refine ⟨x, hx, ?_⟩
    by_cases hid : x.id = r.id
    · rw [if_pos hid] at hfx
      subst hfx
      exact ⟨rfl, rfl, rfl, rfl, rfl, rfl, Or.inr ⟨hid, rfl, rfl⟩⟩
    · rw [if_neg hid] at hfx
      subst hfx
      exact ⟨rfl, rfl, rfl, rfl, rfl, rfl, Or.inl ⟨rfl, rfl⟩⟩

theorem duplicate_title_policies_witness :
    appProcessItem 9 ⟨⟨[rowAme], [rowAme], 2⟩, 0, 0, [], 0⟩ "1"
        (.ok "雨と僕" "abcdefghij") =
      { conn := ⟨[rowAme], [rowAme], 2⟩, inserted := 0, skipped := 0 + 1,
        errors := [], time := 0 + 1 } ∧
    (crawlProcessItem 9 ⟨⟨[rowAme], [rowAme], 2⟩, 0, 0, 0, 0⟩ "1"
        (.ok "雨と僕" "abcdefghij")).conn.rows =
      [rowAme].map (fun x =>
        if x.id = rowAme.id then { x with content := "abcdefghij", updated_at := 9 }
        else x) :=
  ⟨duplicate_title_policies.1 9 ⟨⟨[rowAme], [rowAme], 2⟩, 0, 0, [], 0⟩ "1"
      "雨と僕" "abcdefghij" rowAme (by decide) (by decide) (by decide),
   (duplicate_title_policies.2 9 ⟨⟨[rowAme], [rowAme], 2⟩, 0, 0, 0, 0⟩ "1"
      "雨と僕" "abcdefghij" rowAme (by decide) (by decide) (by decide)).1⟩

/-- Claim C6: the content gate.  Content of exactly 9 characters is discarded
and counted as a skip (a logged skip in the crawler) with the connection
untouched; content of exactly 10 characters with a new title passes the gate and
is inserted; and in both runners every row of the final corpus either was there
initially or carries non-empty content of at least 10 characters. -/
theorem content_length_gate :
    (∀ (t0 : Nat) (st : AppState) (sid title content : String),
       content.length = 9 →
       appProcessItem t0 st sid (.ok title content) =
         { st with skipped := st.skipped + 1, time := st.time + 1 }) ∧
    (∀ (t0 : Nat) (st : CrawlState) (sid title content : String),
       content.length = 9 →
       crawlProcessItem t0 st sid (.ok title content) =
         { st with skipLogs := st.skipLogs + 1, time := st.time + 1 }) ∧
    (∀ (t0 : Nat) (st : AppState) (sid title content : String),
       content.length = 10 →
       lookupByTitle st.conn.rows title = none →
       (appProcessItem t0 st sid (.ok title content)).conn.rows =
          st.conn.rows ++
            [⟨st.conn.nextId, title, content, t0, t0, none, 0, 0⟩] ∧
       (appProcessItem t0 st sid (.ok title content)).inserted =
          st.inserted + 1) ∧
    (∀ (t0 : Nat) (st : CrawlState) (sid title content : String),
       content.length = 10 →
       lookupByTitle st.conn.rows title = none →
       (crawlProcessItem t0 st sid (.ok title content)).conn.rows =
          st.conn.rows ++
            [⟨st.conn.nextId, title, content, t0, t0, none, 0, 0⟩] ∧
       (crawlProcessItem t0 st sid (.ok title content)).inserted =
          st.inserted + 1) ∧
    (∀ (conn0 : Conn) (t0 : Nat) (pages : List (Option (List String)))
       (fetch : String → ItemResult) (fault : Option Nat) (r : Row),
       r ∈ (appRun conn0 t0 pages fetch fault).conn.rows →
       r ∈ conn0.rows ∨ (r.content ≠ "" ∧ 10 ≤ r.content.length)) ∧
    (∀ (conn0 : Conn) (t0 : Nat) (pages : List (Option (List String)))
       (fetch : String → ItemResult) (limit : Nat) (r : Row),
       r ∈ (crawlRun conn0 t0 pages fetch limit).conn.rows →
       r ∈ conn0.rows ∨ (r.content ≠ "" ∧ 10 ≤ r.content.length)) := by
  have gate10 : ∀ content : String, content.length = 10 →
      ¬(content = "" ∨ content.length < 10) := by
    intro content h hcon
    rcases hcon with hc | hc
    · rw [hc] at h
      simp at h
    · omega
  refine ⟨?_, ?_, ?_, ?_, ?_, ?_⟩
  · intro t0 st sid title content h9
    have : content.length < 10 := by omega
    simp only [appProcessItem]
    rw [if_pos (Or.inr this)]
  · intro t0 st sid title content h9
    have : content.length < 10 := by omega
    simp only [crawlProcessItem]
    rw [if_pos (Or.inr this)]
  · intro t0 st sid title content h10 hl
    constructor
    · simp only [appProcessItem]
      rw [if_neg (gate10 content h10), hl]
      simp [commit, insertRow]
    · simp only [appProcessItem]
      rw [if_neg (gate10 content h10), hl]
  · intro t0 st sid title content h10 hl
    constructor
    · simp only [crawlProcessItem]
      rw [if_neg (gate10 content h10), hl]
      simp [insertRow]
    · simp only [crawlProcessItem]
      rw [if_neg (gate10 content h10), hl]
  · intro conn0 t0 pages fetch fault r hr
    rcases appRun_rows_mem conn0 t0 pages fetch fault r hr with h | h
    · exact Or.inl h
    · exact Or.inr ⟨h.1, h.2.1⟩
  · intro conn0 t0 pages fetch limit r hr
    rcases crawlRun_rows_mem conn0 t0 pages fetch limit r hr with h | h
    · exact Or.inl h
    · exact Or.inr ⟨h.1, h.2.1⟩

theorem content_length_gate_witness :
    appProcessItem 0 ⟨⟨[], [], 1⟩, 0, 0, [], 0⟩ "1" (.ok "T" "abcdefghi") =
      { conn := ⟨[], [], 1⟩, inserted := 0, skipped := 0 + 1, errors := [],
        time := 0 + 1 } ∧
    crawlProcessItem 0 ⟨⟨[], [], 1⟩, 0, 0, 0, 0⟩ "1" (.ok "T" "abcdefghi") =
      { conn := ⟨[], [], 1⟩, inserted := 0, updated := 0, skipLogs := 0 + 1,
        time := 0 + 1 } ∧
    (appProcessItem 0 ⟨⟨[], [], 1⟩, 0, 0, [], 0⟩ "1"
        (.ok "T" "abcdefghij")).conn.rows =
      [] ++ [⟨1, "T", "abcdefghij", 0, 0, none, 0, 0⟩] ∧
    (crawlProcessItem 0 ⟨⟨[], [], 1⟩, 0, 0, 0, 0⟩ "1"
        (.ok "T" "abcdefghij")).conn.rows =
      [] ++ [⟨1, "T", "abcdefghij", 0, 0, none, 0, 0⟩] ∧
    ((⟨1, "A", "abcdefghij", 0, 0, none, 0, 0⟩ : Row) ∈
        ([] : List Row) ∨
      (("abcdefghij" : String) ≠ "" ∧ 10 ≤ ("abcdefghij" : String).length)) :=
  ⟨content_length_gate.1 0 ⟨⟨[], [], 1⟩, 0, 0, [], 0⟩ "1" "T" "abcdefghi" rfl,
   content_length_gate.2.1 0 ⟨⟨[], [], 1⟩, 0, 0, 0, 0⟩ "1" "T" "abcdefghi" rfl,
   (content_length_gate.2.2.1 0 ⟨⟨[], [], 1⟩, 0, 0, [], 0⟩ "1" "T"
      "abcdefghij" rfl rfl).1,
   (content_length_gate.2.2.2.1 0 ⟨⟨[], [], 1⟩, 0, 0, 0, 0⟩ "1" "T"
      "abcdefghij" rfl rfl).1,
   content_length_gate.2.2.2.2.1 ⟨[], [], 1⟩ 0 [some ["/song/10/"]]
      (fun _ => .ok "A" "abcdefghij") none ⟨1, "A", "abcdefghij", 0, 0, none, 0, 0⟩
      (by decide)⟩

/-- Claim C10: every corpus write of a run uses the single timestamp captured at
run start.  In app.py every row not present before the run has
created_at = updated_at = t0, so any two rows written in the same run carry
identical timestamps no matter how far apart in the run they were processed; in
the crawler every touched row has updated_at = t0 and every genuinely new row
(id not present before) has created_at = updated_at = t0. -/
theorem shared_run_timestamp :
    (∀ (conn0 : Conn) (t0 : Nat) (pages : List (Option (List String)))
       (fetch : String → ItemResult) (fault : Option Nat) (r : Row),
       r ∈ (appRun conn0 t0 pages fetch fault).conn.rows → r ∉ conn0.rows →
       r.created_at = t0 ∧ r.updated_at = t0) ∧
    (∀ (conn0 : Conn) (t0 : Nat) (pages : List (Option (List String)))
       (fetch : String → ItemResult) (fault : Option Nat) (r s : Row),
       r ∈ (appRun conn0 t0 pages fetch fault).conn.rows →
       s ∈ (appRun conn0 t0 pages fetch fault).conn.rows →
       r ∉ conn0.rows → s ∉ conn0.rows →
       r.created_at = s.created_at ∧ r.updated_at = s.updated_at) ∧
    (∀ (conn0 : Conn) (t0 : Nat) (pages : List (Option (List String)))
       (fetch : String → ItemResult) (limit : Nat) (r : Row),
       r ∈ (crawlRun conn0 t0 pages fetch limit).conn.rows → r ∉ conn0.rows →
       r.updated_at = t0) ∧
    (∀ (conn0 : Conn) (t0 : Nat) (pages : List (Option (List String)))
       (fetch : String → ItemResult) (limit : Nat) (r : Row),
       r ∈ (crawlRun conn0 t0 pages fetch limit).conn.rows →
       r.id ∉ conn0.rows.map Row.id →
       r.created_at = t0 ∧ r.updated_at = t0) := by
  have app1 : ∀ (conn0 : Conn) (t0 : Nat) (pages : List (Option (List String)))
      (fetch : String → ItemResult) (fault : Option Nat) (r : Row),
      r ∈ (appRun conn0 t0 pages fetch fault).conn.rows → r ∉ conn0.rows →
      r.created_at = t0 ∧ r.updated_at = t0 := by
    intro conn0 t0 pages fetch fault r hr hnew
    rcases appRun_rows_mem conn0 t0 pages fetch fault r hr with h | h
    · exact absurd h hnew
    · exact ⟨h.2.2.1, h.2.2.2⟩
  refine ⟨app1, ?_, ?_, ?_⟩
  · intro conn0 t0 pages fetch fault r s hr hs hrn hsn
    have h1 := app1 conn0 t0 pages fetch fault r hr hrn
    have h2 := app1 conn0 t0 pages fetch fault s hs hsn
    rw [h1.1, h1.2, h2.1, h2.2]
    exact ⟨rfl, rfl⟩
  · intro conn0 t0 pages fetch limit r hr hnew
    rcases crawlRun_rows_mem conn0 t0 pages fetch limit r hr with h | h
    · exact absurd h hnew
    · exact h.2.2
  · intro conn0 t0 pages fetch limit r hr hid
    exact crawlRun_new_id_stamps conn0 t0 pages fetch limit r hr hid

theorem shared_run_timestamp_witness :
    ((⟨1, "A", "abcdefghij", 7, 7, none, 0, 0⟩ : Row).created_at = 7 ∧
      (⟨1, "A", "abcdefghij", 7, 7, none, 0, 0⟩ : Row).updated_at = 7) ∧
    (⟨1, "A", "abcdefghij", 7, 7, none, 0, 0⟩ : Row).updated_at = 7 ∧
    ((⟨1, "A", "abcdefghij", 7, 7, none, 0, 0⟩ : Row).created_at = 7 ∧
      (⟨1, "A", "abcdefghij", 7, 7, none, 0, 0⟩ : Row).updated_at = 7) :=
  ⟨shared_run_timestamp.1 ⟨[], [], 1⟩ 7 [some ["/song/10/"]]
      (fun _ => .ok "A" "abcdefghij") none ⟨1, "A", "abcdefghij", 7, 7, none, 0, 0⟩
      (by decide) (by decide),
   shared_run_timestamp.2.2.1 ⟨[], [], 1⟩ 7 [some ["/song/10/"]]
      (fun _ => .ok "A" "abcdefghij") 0 ⟨1, "A", "abcdefghij", 7, 7, none, 0, 0⟩
      (by decide) (by decide),
   shared_run_timestamp.2.2.2 ⟨[], [], 1⟩ 7 [some ["/song/10/"]]
      (fun _ => .ok "A" "abcdefghij") 0 ⟨1, "A", "abcdefghij", 7, 7, none, 0, 0⟩
      (by decide) (by decide)⟩

/-! ### The listing parser and the extractor heuristics -/

theorem extract_ids_foldl_filterMap :
    ∀ (hrefs : List String) (acc : List String),
      hrefs.foldl
        (fun ids href =>
          match songIdOfHref href with
          | some sid => addIdStep ids sid
          | none => ids) acc =
      (hrefs.filterMap songIdOfHref).foldl addIdStep acc := by
  intro hrefs
  induction hrefs with
  | nil => intro acc; rfl
  | cons h t ih =>
    intro acc
    cases hs : songIdOfHref h with
    | none => simp [List.filterMap_cons, hs, ih]
    | some sid => simp [List.filterMap_cons, hs, ih]

theorem addIdStep_fold_nodup :
    ∀ (l : List String) (acc : List String), acc.Nodup →
      (l.foldl addIdStep acc).Nodup := by
  intro l
  induction l with
  | nil => intro acc h; exact h
  | cons a t ih =>
    intro acc h
    refine ih (addIdStep acc a) ?_
    unfold addIdStep
    split
    · exact h
    · rename_i hmem
      simp [List.nodup_append, h, hmem]

/-- Claim C7 (amended): the listing parser returns exactly the digit groups of
the hrefs that BEGIN with `/song/<digits>` (`re.match` anchors only at the
start, so anything may follow the digits — an optional trailing slash included),
in first-seen order with duplicates folded by membership; in particular
`/song/10/`, `/song/20/`, `/song/10/` yields exactly `["10", "20"]`, and the
result never holds a duplicate. -/
theorem listing_id_extraction :
    (∀ hrefs : List String,
       extract_song_ids_from_artist_page hrefs =
         dedupKeepFirst (hrefs.filterMap songIdOfHref)) ∧
    (∀ hrefs : List String, (extract_song_ids_from_artist_page hrefs).Nodup) ∧
    extract_song_ids_from_artist_page ["/song/10/", "/song/20/", "/song/10/"] =
      ["10", "20"] := by
  refine ⟨?_, ?_, by decide⟩
  · intro hrefs
    exact extract_ids_foldl_filterMap hrefs []
  · intro hrefs
    have h : extract_song_ids_from_artist_page hrefs =
        (hrefs.filterMap songIdOfHref).foldl addIdStep [] :=
      extract_ids_foldl_filterMap hrefs []
    rw [h]
    exact addIdStep_fold_nodup (hrefs.filterMap songIdOfHref) [] List.nodup_nil

/-- Claim C7 counterexample: the href `/song/10/lyric` does NOT match the
pattern `/song/<digits>/` with only an optional trailing slash, yet the parser
extracts `"10"` from it, because `re.match` only anchors the pattern at the
start of the href. -/
theorem listing_id_prefix_counterexample :
    extract_song_ids_from_artist_page ["/song/10/lyric"] = ["10"] ∧
    dedupKeepFirst (List.filterMap specSongIdFullMatch ["/song/10/lyric"]) =
      [] := by
  decide

/-- Claim C8: the tier-3 fallback scan, evaluated at a div whose flattened text
is only 2 characters but whose raw text mentions 作詞.  crawl_uta_net.py:111
lacks the parentheses and selects it (`and` binds tighter than `or`), violating
the claim; app.py:372 (the parenthesized rewrite of the same line) rejects it.
On divs genuinely satisfying both conditions the two agree, and both skip
chrome divs such as `id="header"`. -/
theorem fallback_scan_precedence_bug :
    fallbackScanCrawl [shortSakushiDiv] = some shortSakushiDiv ∧
    shortSakushiDiv.flatText.length ≤ 100 ∧
    fallbackScanApp [shortSakushiDiv] = none ∧
    fallbackScanApp [chromeHeaderDiv, longLyricDiv] = some longLyricDiv ∧
    fallbackScanCrawl [chromeHeaderDiv, longLyricDiv] = some longLyricDiv := by
  decide

/-- Claim C9 (amended): when none of the three container tiers finds a lyric
container, the extractor returns an EMPTY content but a NON-empty title (the
title heuristic runs independently of the container and falls back to
`"unknown"`), and the caller's length gate then discards the record as a
counted skip.  The crawler's extractor likewise returns empty content when its
own container selection fails. -/
theorem extractor_no_container (p : Page)
    (ha : findLyricsDivApp p.divs = none) :
    (extract_title_and_lyrics p).2 = "" ∧
    (extract_title_and_lyrics p).1 ≠ "" ∧
    (∀ (t0 : Nat) (st : AppState) (sid : String),
       appProcessItem t0 st sid
         (.ok (extract_title_and_lyrics p).1 (extract_title_and_lyrics p).2) =
         { st with skipped := st.skipped + 1, time := st.time + 1 }) ∧
    (findLyricsDivCrawl p.divs = none →
      (crawl_extract_title_and_lyrics p).2 = "") := by
  have hcontent : (extract_title_and_lyrics p).2 = "" := by
    simp [extract_title_and_lyrics, contentOf, ha]
  have base : ∀ s : String, (if s = "" then "unknown" else s) ≠ "" := by
    intro s
    split
    · decide
    · assumption
  have htitle : (extract_title_and_lyrics p).1 ≠ "" := base _
  refine ⟨hcontent, htitle, ?_, ?_⟩
  · intro t0 st sid
    rw [hcontent]
    simp [appProcessItem]
  · intro hc
    simp [crawl_extract_title_and_lyrics, contentOf, hc]

theorem extractor_no_container_witness :
    (extract_title_and_lyrics ⟨none, none, []⟩).2 = "" ∧
    (extract_title_and_lyrics ⟨none, none, []⟩).1 ≠ "" ∧
    appProcessItem 0 ⟨⟨[], [], 1⟩, 0, 0, [], 0⟩ "9"
      (.ok (extract_title_and_lyrics ⟨none, none, []⟩).1
        (extract_title_and_lyrics ⟨none, none, []⟩).2) =
      { conn := ⟨[], [], 1⟩, inserted := 0, skipped := 0 + 1, errors := [],
        time := 0 + 1 } ∧
    (crawl_extract_title_and_lyrics ⟨none, none, []⟩).2 = "" :=
  ⟨(extractor_no_container ⟨none, none, []⟩ rfl).1,
   (extractor_no_container ⟨none, none, []⟩ rfl).2.1,
   (extractor_no_container ⟨none, none, []⟩ rfl).2.2.1 0
      ⟨⟨[], [], 1⟩, 0, 0, [], 0⟩ "9",
   (extractor_no_container ⟨none, none, []⟩ rfl).2.2.2 rfl⟩

/-- Claim C9 counterexample: on a page where no tier finds a container (and no
h2 or title element exists either), the extractor returns title `"unknown"`,
not an empty title — the claimed "empty title" never happens, since the title
heuristic always falls back to a non-empty value. -/
theorem extractor_unknown_title_counterexample :
    extract_title_and_lyrics ⟨none, none, []⟩ = ("unknown", "") ∧
    ("unknown" : String) ≠ "" := by
  decide
